import Mathlib

/-
Verification development for the relationship-scoring engine
(relationship_scorer_package).  The repository snapshot carries the
README, the YAML configuration files and a sample notebook run; the
scoring modules themselves are modelled from the specification and
cross-checked against the concrete outputs recorded in the notebook
(reference year 2025, configuration of config/scoring_config.yaml).
-/

namespace RelScoring

/-- Sentiment label carried by each mention, per the input data model. -/
inductive Sentiment where
  | Positive : Sentiment
  | Negative : Sentiment
  | Neutral : Sentiment
deriving DecidableEq, Repr

/-- Dominant-sentiment category of the sentiment result, per the output data model. -/
inductive DominantSentiment where
  | Positive : DominantSentiment
  | Negative : DominantSentiment
  | Neutral : DominantSentiment
  | Mixed : DominantSentiment
deriving DecidableEq, Repr

/-- Modelled from the spec: a Mention record of the input data model
(source_type, year, sentiment, optional mention_id); the Pydantic model
src/data_models/models.py is absent from the snapshot. -/
structure Mention where
  source_type : String
  year : Int
  sentiment : Sentiment
  mention_id : Option String := none
deriving DecidableEq, Repr

/-- Modelled from the spec: EntityMetadata of the input data model. -/
structure EntityMetadata where
  id : String
  overall_prominence : Rat
deriving DecidableEq, Repr

/-- Modelled from the spec: the validated construction input (ScorerInputData). -/
structure ScorerInput where
  relationship_mentions : List Mention
  entity_a_metadata : EntityMetadata
  entity_b_metadata : EntityMetadata
deriving DecidableEq, Repr

/-- The source_weights table of config/scoring_config.yaml, as a total map
(weights are modelled as exact rationals). -/
def configWeights (st : String) : Rat :=
  if st = "Guideline" then 10
  else if st = "Label" then 9
  else if st = "Phase 4 CT" then 7
  else if st = "Phase 3 CT" then 6
  else if st = "Phase 2 CT" then 5
  else if st = "Phase 1 CT" then 4
  else if st = "PubMed" then 1
  else if st = "Preclinical" then 1/2
  else if st = "Review" then 3/2
  else 0

/-- The sample mention list of src/sample_run.ipynb (cell 1). -/
def sampleMentions : List Mention :=
  [⟨"Guideline", 2025, Sentiment.Positive, some "guideline-abc"⟩,
   ⟨"Label", 2023, Sentiment.Positive, some "label-abc"⟩,
   ⟨"Phase 3 CT", 2021, Sentiment.Positive, some "NCT12345"⟩,
   ⟨"Phase 2 CT", 2017, Sentiment.Positive, some "NCT12345"⟩,
   ⟨"Phase 1 CT", 2015, Sentiment.Positive, some "NCT12345"⟩,
   ⟨"PubMed", 2012, Sentiment.Neutral, some "pmid:30000001"⟩,
   ⟨"PubMed", 2010, Sentiment.Negative, some "pmid:30000000"⟩,
   ⟨"Review", 2005, Sentiment.Positive, some "review-xyz"⟩]

/-- Total weight of a mention list: the sum of source weights of all mentions. -/
def totalWeight (w : String → Rat) (ms : List Mention) : Rat :=
  (ms.map (fun m => w m.source_type)).sum

/-- Modelled from the spec: NetScoreDetailed accumulates, per sentiment category,
the sum of source weights of the mentions carrying that sentiment
(src/scoring sentiment module is absent from the snapshot). -/
def categoryScore (w : String → Rat) (s : Sentiment) (ms : List Mention) : Rat :=
  totalWeight w (ms.filter (fun m => m.sentiment = s))

def positiveScore (w : String → Rat) (ms : List Mention) : Rat :=
  categoryScore w Sentiment.Positive ms

def negativeScore (w : String → Rat) (ms : List Mention) : Rat :=
  categoryScore w Sentiment.Negative ms

def neutralScore (w : String → Rat) (ms : List Mention) : Rat :=
  categoryScore w Sentiment.Neutral ms

/-- Modelled from the spec: net_score = positive_score - negative_score. -/
def netScore (w : String → Rat) (ms : List Mention) : Rat :=
  positiveScore w ms - negativeScore w ms

/-- Modelled from the spec: the dominant-sentiment selection of NetScoreDetailed.
All-zero scores default to Neutral; otherwise the strictly largest category wins;
any remaining (ambiguous) tie yields Mixed. -/
def dominantSentiment (p n neu : Rat) : DominantSentiment :=
  if p = 0 ∧ n = 0 ∧ neu = 0 then DominantSentiment.Neutral
  else if n < p ∧ neu < p then DominantSentiment.Positive
  else if p < n ∧ neu < n then DominantSentiment.Negative
  else if p < neu ∧ n < neu then DominantSentiment.Neutral
  else DominantSentiment.Mixed

/-- Dominant sentiment computed from a mention list. -/
def dominantOf (w : String → Rat) (ms : List Mention) : DominantSentiment :=
  dominantSentiment (positiveScore w ms) (negativeScore w ms) (neutralScore w ms)

/-- Claim C2: with the NetScoreDetailed method, positive_score + negative_score +
neutral_score equals the total sum of source weights of all mentions (each mention
contributes its own weight, independent of repeats), and net_score equals
positive_score minus negative_score. -/
theorem netScoreDetailed_partition_and_net (w : String → Rat) (ms : List Mention) :
    positiveScore w ms + negativeScore w ms + neutralScore w ms = totalWeight w ms ∧
    netScore w ms = positiveScore w ms - negativeScore w ms := by
  refine ⟨?_, rfl⟩
  induction ms with
  | nil =>
    simp [positiveScore, negativeScore, neutralScore, categoryScore, totalWeight]
  | cons m t ih =>
    cases hs : m.sentiment <;>
      simp only [positiveScore, negativeScore, neutralScore, categoryScore,
        totalWeight, List.filter_cons, hs, List.map_cons, List.sum_cons,
        decide_eq_true_eq, if_pos, if_neg, reduceCtorEq, decide_True,
        decide_False, ite_true, ite_false] <;>
      simp only [positiveScore, negativeScore, neutralScore, categoryScore,
        totalWeight] at ih <;>
      linarith [ih]

/-- Claim C3: dominant_sentiment is the category with the strictly largest
accumulated weighted score; an exact positive/negative tie (when otherwise
ambiguous) yields Mixed; and when all three accumulated scores are zero the
result is Neutral, not Mixed. -/
theorem dominant_sentiment_selection (w : String → Rat) (ms : List Mention) :
    (positiveScore w ms = 0 → negativeScore w ms = 0 → neutralScore w ms = 0 →
      dominantOf w ms = DominantSentiment.Neutral) ∧
    (negativeScore w ms < positiveScore w ms → neutralScore w ms < positiveScore w ms →
      dominantOf w ms = DominantSentiment.Positive) ∧
    (positiveScore w ms < negativeScore w ms → neutralScore w ms < negativeScore w ms →
      dominantOf w ms = DominantSentiment.Negative) ∧
    (positiveScore w ms < neutralScore w ms → negativeScore w ms < neutralScore w ms →
      dominantOf w ms = DominantSentiment.Neutral) ∧
    (positiveScore w ms = negativeScore w ms →
      ¬ (positiveScore w ms < neutralScore w ms) →
      ¬ (positiveScore w ms = 0 ∧ negativeScore w ms = 0 ∧ neutralScore w ms = 0) →
      dominantOf w ms = DominantSentiment.Mixed) := by
  unfold dominantOf dominantSentiment
  set p := positiveScore w ms with hp
  set n := negativeScore w ms with hn
  set neu := neutralScore w ms with hneu
  refine ⟨?_, ?_, ?_, ?_, ?_⟩
  · intro h1 h2 h3
    rw [if_pos ⟨h1, h2, h3⟩]
  · intro h1 h2
    rw [if_neg (by rintro ⟨e1, e2, e3⟩; rw [e1, e2] at h1; exact lt_irrefl 0 h1),
      if_pos ⟨h1, h2⟩]
  · intro h1 h2
    rw [if_neg (by rintro ⟨e1, e2, e3⟩; rw [e1, e2] at h1; exact lt_irrefl 0 h1),
      if_neg (by rintro ⟨g1, g2⟩; exact absurd h1 (not_lt_of_lt g1)),
      if_pos ⟨h1, h2⟩]
  · intro h1 h2
    rw [if_neg (by rintro ⟨e1, e2, e3⟩; rw [e1, e3] at h1; exact lt_irrefl 0 h1),
      if_neg (by rintro ⟨g1, g2⟩; exact absurd h1 (not_lt_of_lt g2)),
      if_neg (by rintro ⟨g1, g2⟩; exact absurd h2 (not_lt_of_lt g2)),
      if_pos ⟨h1, h2⟩]
  · intro h1 h2 h3
    rw [if_neg h3,
      if_neg (by rintro ⟨g1, g2⟩; rw [h1] at g1; exact lt_irrefl n g1),
      if_neg (by rintro ⟨g1, g2⟩; rw [h1] at g1; exact lt_irrefl n g1),
      if_neg (by rintro ⟨g1, g2⟩; exact h2 g1)]

/-- Witness for claim C3: on the notebook sample (positive 71/2, negative 1,
neutral 1) the dominant sentiment is Positive, matching the recorded output. -/
theorem dominant_sentiment_selection_witness :
    dominantOf configWeights sampleMentions = DominantSentiment.Positive :=
  (dominant_sentiment_selection configWeights sampleMentions).2.1
    (by simp [negativeScore, positiveScore, categoryScore, totalWeight,
      sampleMentions, configWeights]; norm_num)
    (by simp [neutralScore, positiveScore, categoryScore, totalWeight,
      sampleMentions, configWeights]; norm_num)

/-- Frequency-aggregation strategy of config/scoring_config.yaml. -/
inductive FrequencyAggregation where
  | Logarithmic : FrequencyAggregation
  | SimpleSum : FrequencyAggregation
deriving DecidableEq, Repr

/-- Normalization strategy of config/scoring_config.yaml
(PMILike, RelativeFrequency, or NoNorm for the literal None option). -/
inductive NormalizationMethod where
  | PMILike : NormalizationMethod
  | RelativeFrequency : NormalizationMethod
  | NoNorm : NormalizationMethod
deriving DecidableEq, Repr

/-- Distinct source types occurring in a mention list, in first-occurrence order. -/
def sourceTypes (ms : List Mention) : List String :=
  (ms.map (fun m => m.source_type)).dedup

/-- Number of mentions of a given source type. -/
def countOf (ms : List Mention) (st : String) : Nat :=
  (ms.filter (fun m => m.source_type = st)).length

/-- Modelled from the spec: contribution of one source-type group to the raw
weighted evidence score (src/scoring evidence module is absent from the
snapshot).  Logarithmic uses weight times log of one plus the count; SimpleSum
uses weight times the count. -/
noncomputable def typeContribution (agg : FrequencyAggregation) (w : Rat) (count : Nat) : Real :=
  match agg with
  | FrequencyAggregation.Logarithmic => (w : Real) * Real.log (1 + (count : Real))
  | FrequencyAggregation.SimpleSum => (w : Real) * (count : Real)

/-- Modelled from the spec: the raw weighted evidence score, summing the
per-source-type contributions. -/
noncomputable def rawWeightedScore (w : String → Rat) (agg : FrequencyAggregation)
    (ms : List Mention) : Real :=
  ((sourceTypes ms).map
    (fun st => typeContribution agg (w st) (countOf ms st))).sum

/-- Modelled from the spec: the evidence-strength calculator.  The
prominence-combining function of the PMI-like normalization is
implementation-defined (monotonically increasing in each argument) and is
therefore a parameter; when its value on the two prominences is zero the raw
score is returned unchanged, guarding the division. -/
noncomputable def evidenceStrength (combine : Rat → Rat → Rat) (w : String → Rat)
    (agg : FrequencyAggregation) (norm : NormalizationMethod)
    (pa pb : Rat) (ms : List Mention) : Real :=
  match norm with
  | NormalizationMethod.NoNorm => rawWeightedScore w agg ms
  | NormalizationMethod.RelativeFrequency =>
      rawWeightedScore w agg ms / (ms.length : Real)
  | NormalizationMethod.PMILike =>
      if combine pa pb = 0 then rawWeightedScore w agg ms
      else rawWeightedScore w agg ms / ((combine pa pb : Rat) : Real)

/-- One admissible prominence-combining function (the sum), used to
instantiate the implementation-defined PMI-like denominator on concrete runs. -/
def combineSum (a b : Rat) : Rat := a + b

/-- The single-mention input of testable-properties Scenario 1. -/
def guidelineOnly : List Mention := [⟨"Guideline", 2024, Sentiment.Positive, none⟩]

/-- Claim C4: with Logarithmic aggregation and no normalization, the evidence
strength is the sum over source types of weight times the natural log of one
plus that type's mention count; on the single Guideline mention of Scenario 1
with weight 10 it equals 10 times log 2, which lies strictly between 6.931
and 6.932. -/
theorem evidence_strength_logarithmic_none :
    (∀ (c : Rat → Rat → Rat) (w : String → Rat) (pa pb : Rat) (ms : List Mention),
      evidenceStrength c w FrequencyAggregation.Logarithmic NormalizationMethod.NoNorm pa pb ms
        = ((sourceTypes ms).map
            (fun st => (w st : Real) * Real.log (1 + (countOf ms st : Real)))).sum) ∧
    evidenceStrength combineSum configWeights FrequencyAggregation.Logarithmic
        NormalizationMethod.NoNorm 0 0 guidelineOnly = 10 * Real.log 2 ∧
    (6.931 : Real) < evidenceStrength combineSum configWeights FrequencyAggregation.Logarithmic
        NormalizationMethod.NoNorm 0 0 guidelineOnly ∧
    evidenceStrength combineSum configWeights FrequencyAggregation.Logarithmic
        NormalizationMethod.NoNorm 0 0 guidelineOnly < (6.932 : Real) := by
  have hval : evidenceStrength combineSum configWeights FrequencyAggregation.Logarithmic
      NormalizationMethod.NoNorm 0 0 guidelineOnly = 10 * Real.log 2 := by
    show rawWeightedScore configWeights FrequencyAggregation.Logarithmic guidelineOnly
        = 10 * Real.log 2
    have hst : sourceTypes guidelineOnly = ["Guideline"] := rfl
    have hcount : countOf guidelineOnly "Guideline" = 1 := rfl
    rw [rawWeightedScore, hst]
    simp [hcount, typeContribution, configWeights]
    norm_num
  refine ⟨fun c w pa pb ms => rfl, hval, ?_, ?_⟩
  · rw [hval]
    nlinarith [Real.log_two_gt_d9]
  · rw [hval]
    nlinarith [Real.log_two_lt_d9]

/-- Claim C8: with PMI-like normalization, a zero prominence-combining
denominator (in particular both prominences zero) yields the un-normalized
raw weighted score, and the division branch is taken exactly when the
denominator is nonzero. -/
theorem pmi_like_zero_prominence_guard (combine : Rat → Rat → Rat)
    (w : String → Rat) (agg : FrequencyAggregation) (pa pb : Rat)
    (ms : List Mention) (hc : combine 0 0 = 0) :
    (pa = 0 → pb = 0 →
      evidenceStrength combine w agg NormalizationMethod.PMILike pa pb ms
        = rawWeightedScore w agg ms) ∧
    (combine pa pb ≠ 0 →
      evidenceStrength combine w agg NormalizationMethod.PMILike pa pb ms
        = rawWeightedScore w agg ms / ((combine pa pb : Rat) : Real)) := by
  constructor
  · intro ha hb
    subst ha; subst hb
    show (if combine 0 0 = 0 then rawWeightedScore w agg ms else _) = _
    rw [if_pos hc]
  · intro hne
    show (if combine pa pb = 0 then _ else
      rawWeightedScore w agg ms / ((combine pa pb : Rat) : Real)) = _
    rw [if_neg hne]

/-- Witness for claim C8: with the sum combiner and both prominences zero, the
PMI-like evidence strength on the Scenario 1 input equals the raw weighted
score (no division by zero occurs). -/
theorem pmi_like_zero_prominence_guard_witness :
    evidenceStrength combineSum configWeights FrequencyAggregation.Logarithmic
        NormalizationMethod.PMILike 0 0 guidelineOnly
      = rawWeightedScore configWeights FrequencyAggregation.Logarithmic guidelineOnly :=
  (pmi_like_zero_prominence_guard combineSum configWeights
      FrequencyAggregation.Logarithmic 0 0 guidelineOnly (by norm_num [combineSum])).1
    rfl rfl

/-- Age of a mention relative to the reference year, clamped at zero so that
future years do not invert the decay. -/
def ageOf (ref year : Int) : Int := max 0 (ref - year)

/-- Modelled from the spec: contribution of one mention to the recency-weighted
trend score, weight times exp of minus decay rate times age (src/scoring trend
module is absent from the snapshot). -/
noncomputable def recencyContribution (w : String → Rat) (decay : Real)
    (ref : Int) (m : Mention) : Real :=
  (w m.source_type : Real) * Real.exp (-decay * ((ageOf ref m.year : Int) : Real))

/-- Modelled from the spec: the recency-weighted trend score, summing the
per-mention exponentially decayed weights. -/
noncomputable def recencyWeighted (w : String → Rat) (decay : Real)
    (ref : Int) (ms : List Mention) : Real :=
  (ms.map (recencyContribution w decay ref)).sum

/-- Claim C5: the recency-weighted score is the sum over mentions of weight
times exp of minus decay times age, with age clamped at zero; a mention from
the reference year contributes its full weight, and no mention's contribution
ever exceeds its weight (future years are not amplified). -/
theorem recency_weighted_formula (w : String → Rat) (decay : Real)
    (ref : Int) (ms : List Mention) (hd : 0 ≤ decay) :
    recencyWeighted w decay ref ms
      = (ms.map (fun m => (w m.source_type : Real) *
          Real.exp (-decay * ((max 0 (ref - m.year) : Int) : Real)))).sum ∧
    (∀ m : Mention, m.year = ref →
      recencyContribution w decay ref m = (w m.source_type : Real)) ∧
    (∀ m : Mention, 0 ≤ w m.source_type →
      recencyContribution w decay ref m ≤ (w m.source_type : Real)) := by
  refine ⟨rfl, ?_, ?_⟩
  · intro m hm
    simp [recencyContribution, ageOf, hm]
  · intro m hw
    have hage : (0 : Real) ≤ ((ageOf ref m.year : Int) : Real) := by
      have h0 : (0 : Int) ≤ ageOf ref m.year := le_max_left 0 (ref - m.year)
      exact_mod_cast h0
    have hexp : Real.exp (-decay * ((ageOf ref m.year : Int) : Real)) ≤ 1 := by
      rw [Real.exp_le_one_iff]
      nlinarith
    have hw0 : (0 : Real) ≤ (w m.source_type : Real) := by exact_mod_cast hw
    calc (w m.source_type : Real) * Real.exp (-decay * ((ageOf ref m.year : Int) : Real))
        ≤ (w m.source_type : Real) * 1 := mul_le_mul_of_nonneg_left hexp hw0
      _ = (w m.source_type : Real) := mul_one _

/-- Witness for claim C5: with the configured decay rate 0.15 and reference
year 2025, the sample's 2025 Guideline mention contributes exactly its weight. -/
theorem recency_weighted_formula_witness :
    recencyContribution configWeights (0.15 : Real) 2025
        ⟨"Guideline", 2025, Sentiment.Positive, some "guideline-abc"⟩
      = (configWeights "Guideline" : Real) :=
  ((recency_weighted_formula configWeights (0.15 : Real) 2025 sampleMentions
      (by norm_num)).2.1)
    ⟨"Guideline", 2025, Sentiment.Positive, some "guideline-abc"⟩ rfl

/-- A year lies in the recent window, the half-open interval of length
window_years ending at (and including) the reference year. -/
def inRecent (W : Rat) (ref y : Int) : Prop :=
  (ref : Rat) - W < (y : Rat) ∧ (y : Rat) ≤ (ref : Rat)

/-- A year lies in the prior window, the window_years-wide half-open interval
immediately preceding the recent window. -/
def inPrior (W : Rat) (ref y : Int) : Prop :=
  (ref : Rat) - 2 * W < (y : Rat) ∧ (y : Rat) ≤ (ref : Rat) - W

instance (W : Rat) (ref y : Int) : Decidable (inRecent W ref y) := by
  unfold inRecent; infer_instance

instance (W : Rat) (ref y : Int) : Decidable (inPrior W ref y) := by
  unfold inPrior; infer_instance

/-- Simple weighted sum of the mentions falling in the recent window. -/
def recentWindowTotal (w : String → Rat) (W : Rat) (ref : Int)
    (ms : List Mention) : Rat :=
  totalWeight w (ms.filter (fun m => inRecent W ref m.year))

/-- Simple weighted sum of the mentions falling in the prior window. -/
def priorWindowTotal (w : String → Rat) (W : Rat) (ref : Int)
    (ms : List Mention) : Rat :=
  totalWeight w (ms.filter (fun m => inPrior W ref m.year))

/-- Modelled from the spec: the rate-of-change trend score, the recent-window
total minus the prior-window total. -/
def rateOfChange (w : String → Rat) (W : Rat) (ref : Int)
    (ms : List Mention) : Rat :=
  recentWindowTotal w W ref ms - priorWindowTotal w W ref ms

lemma filter_eq_nil_of_none {p : Mention → Bool} :
    ∀ ms : List Mention, (∀ m ∈ ms, p m = false) → ms.filter p = []
  | [], _ => rfl
  | m :: t, h => by
    have hm : p m = false := h m (List.mem_cons_self m t)
    have ht := filter_eq_nil_of_none t (fun x hx => h x (List.mem_cons_of_mem m hx))
    simp [List.filter_cons, hm, ht]

/-- Claim C6: the rate-of-change score is the recent-window total minus the
prior-window total; the two windows are consecutive and non-overlapping,
jointly covering exactly the last two window lengths before the reference
year; mentions older than both windows contribute nothing; and an empty prior
window behaves as a zero total, so the score is always well-defined. -/
theorem rate_of_change_windows (w : String → Rat) (W : Rat) (ref : Int)
    (ms : List Mention) :
    rateOfChange w W ref ms
      = recentWindowTotal w W ref ms - priorWindowTotal w W ref ms ∧
    (0 < W → ∀ y : Int, ¬ (inRecent W ref y ∧ inPrior W ref y)) ∧
    (0 < W → ∀ y : Int, (inRecent W ref y ∨ inPrior W ref y) ↔
      ((ref : Rat) - 2 * W < (y : Rat) ∧ (y : Rat) ≤ (ref : Rat))) ∧
    (0 < W → (∀ m ∈ ms, (m.year : Rat) ≤ (ref : Rat) - 2 * W) →
      rateOfChange w W ref ms = 0) ∧
    ((∀ m ∈ ms, ¬ inPrior W ref m.year) →
      rateOfChange w W ref ms = recentWindowTotal w W ref ms) := by
  refine ⟨rfl, ?_, ?_, ?_, ?_⟩
  · rintro hW y ⟨⟨h1, h2⟩, ⟨h3, h4⟩⟩
    linarith
  · intro hW y
    constructor
    · rintro (⟨h1, h2⟩ | ⟨h1, h2⟩) <;> exact ⟨by linarith, by linarith⟩
    · rintro ⟨h1, h2⟩
      rcases le_or_lt ((y : Int) : Rat) ((ref : Rat) - W) with h | h
      · exact Or.inr ⟨h1, h⟩
      · exact Or.inl ⟨h, h2⟩
  · intro hW h
    have hr : ms.filter (fun m => inRecent W ref m.year) = [] := by
      apply filter_eq_nil_of_none
      intro m hm
      rw [decide_eq_false_iff_not]
      rintro ⟨h1, h2⟩
      have := h m hm
      linarith
    have hp : ms.filter (fun m => inPrior W ref m.year) = [] := by
      apply filter_eq_nil_of_none
      intro m hm
      rw [decide_eq_false_iff_not]
      rintro ⟨h1, h2⟩
      have := h m hm
      linarith
    rw [rateOfChange, recentWindowTotal, priorWindowTotal, hr, hp]
    simp [totalWeight]
  · intro h
    have hp : ms.filter (fun m => inPrior W ref m.year) = [] := by
      apply filter_eq_nil_of_none
      intro m hm
      rw [decide_eq_false_iff_not]
      exact h m hm
    rw [rateOfChange, priorWindowTotal, hp]
    simp [totalWeight]

/-- Witness for claim C6: with the configured window of 5 years and reference
year 2025, no year lies in both the recent and the prior window (checked at
2018). -/
theorem rate_of_change_windows_witness :
    ¬ (inRecent 5 2025 2018 ∧ inPrior 5 2025 2018) :=
  ((rate_of_change_windows configWeights 5 2025 sampleMentions).2.1
    (by norm_num)) 2018

/-- Claim C10: the rate-of-change window totals are simple weighted sums with
no exponential decay, and the windows are lower-exclusive and upper-inclusive:
with window 5 and reference year 2025 the sample's year-2015 mention lies in
neither window, the recent total is 10 + 9 + 6 = 25, the prior total is 5, and
the score is 20, matching the notebook output 20.0. -/
theorem rate_of_change_sample_run :
    recentWindowTotal configWeights 5 2025 sampleMentions = 25 ∧
    priorWindowTotal configWeights 5 2025 sampleMentions = 5 ∧
    rateOfChange configWeights 5 2025 sampleMentions = 20 ∧
    ¬ inRecent 5 2025 2015 ∧
    ¬ inPrior 5 2025 2015 := by
  refine ⟨?_, ?_, ?_, ?_, ?_⟩ <;>
    (norm_num [rateOfChange, recentWindowTotal, priorWindowTotal, totalWeight,
      inRecent, inPrior, sampleMentions, configWeights, List.filter_cons];
     try simp; try norm_num)

/-- Maximum of a list of rationals, with 0 as the value on the empty list. -/
def maxQ : List Rat → Rat
  | [] => 0
  | x :: xs => max x (maxQ xs)

lemma le_maxQ : ∀ (l : List Rat), ∀ x ∈ l, x ≤ maxQ l
  | _ :: xs, x, List.Mem.head _ => le_max_left x (maxQ xs)
  | y :: xs, x, List.Mem.tail _ hx =>
      le_trans (le_maxQ xs x hx) (le_max_right y (maxQ xs))

lemma maxQ_mem : ∀ (l : List Rat), l ≠ [] → (∀ x ∈ l, 0 ≤ x) → maxQ l ∈ l
  | [], h, _ => absurd rfl h
  | x :: xs, _, h0 => by
    cases hxs : xs with
    | nil =>
      have hx : maxQ [x] = x :=
        max_eq_left (h0 x (List.mem_cons_self x xs))
      rw [hx]
      exact List.mem_cons_self x []
    | cons y ys =>
      subst hxs
      rcases le_total (maxQ (y :: ys)) x with hle | hle
      · have hm : maxQ (x :: y :: ys) = x := max_eq_left hle
        rw [hm]
        exact List.mem_cons_self x (y :: ys)
      · have hm : maxQ (x :: y :: ys) = maxQ (y :: ys) := max_eq_right hle
        rw [hm]
        exact List.mem_cons_of_mem x
          (maxQ_mem (y :: ys) (List.cons_ne_nil y ys)
            (fun z hz => h0 z (List.mem_cons_of_mem x hz)))

/-- The progression_points table of config/scoring_config.yaml, as a total map. -/
def configProgressionPoints (st : String) : Rat :=
  if st = "Guideline" then 5
  else if st = "Label" then 4
  else if st = "Phase 3 CT" then 3
  else if st = "Phase 2 CT" then 2
  else if st = "Phase 1 CT" then 1
  else if st = "PubMed" then 1
  else if st = "Preclinical" then 1/4
  else if st = "Review" then 1/10
  else 0

/-- Mentions whose age relative to the reference year lies within the
recent-years threshold. -/
def qualifyingMentions (thr : Rat) (ref : Int) (ms : List Mention) : List Mention :=
  ms.filter (fun m => ((ref - m.year : Int) : Rat) ≤ thr)

/-- Modelled from the spec: the evidence-progression trend score, the maximum
progression_points value among the source types of recent mentions, zero when
no mention is recent enough (src/scoring trend module is absent from the
snapshot). -/
def evidenceProgression (pp : String → Rat) (thr : Rat) (ref : Int)
    (ms : List Mention) : Rat :=
  maxQ ((qualifyingMentions thr ref ms).map (fun m => pp m.source_type))

/-- Claim C7: the evidence-progression score is 0 when no mention is within
the recent-years threshold; it bounds the progression points of every
qualifying mention from above; and when some mention qualifies (points being
non-negative) it is attained by the source type of a qualifying mention, i.e.
it is exactly the maximum progression_points value among them. -/
theorem evidence_progression_max (pp : String → Rat) (thr : Rat) (ref : Int)
    (ms : List Mention) :
    (qualifyingMentions thr ref ms = [] → evidenceProgression pp thr ref ms = 0) ∧
    (∀ m ∈ qualifyingMentions thr ref ms,
      pp m.source_type ≤ evidenceProgression pp thr ref ms) ∧
    (qualifyingMentions thr ref ms ≠ [] → (∀ st : String, 0 ≤ pp st) →
      ∃ m ∈ qualifyingMentions thr ref ms,
        evidenceProgression pp thr ref ms = pp m.source_type) := by
  refine ⟨?_, ?_, ?_⟩
  · intro h
    rw [evidenceProgression, h]
    rfl
  · intro m hm
    exact le_maxQ _ (pp m.source_type)
      (List.mem_map_of_mem (fun m => pp m.source_type) hm)
  · intro hne hpp
    have hmem : maxQ ((qualifyingMentions thr ref ms).map (fun m => pp m.source_type))
        ∈ (qualifyingMentions thr ref ms).map (fun m => pp m.source_type) := by
      apply maxQ_mem
      · simp only [ne_eq, List.map_eq_nil_iff]
        exact hne
      · intro x hx
        rcases List.mem_map.mp hx with ⟨m, _, hmx⟩
        rw [← hmx]
        exact hpp m.source_type
    rcases List.mem_map.mp hmem with ⟨m, hmq, hmx⟩
    exact ⟨m, hmq, hmx.symm⟩

/-- Witness for claim C7: with threshold 2 and reference year 2025, the
sample's 2023 Label mention qualifies and its 4 progression points bound the
score from below (the notebook records the score 5.0, from the Guideline
mention). -/
theorem evidence_progression_max_witness :
    configProgressionPoints "Label"
      ≤ evidenceProgression configProgressionPoints 2 2025 sampleMentions :=
  (evidence_progression_max configProgressionPoints 2 2025 sampleMentions).2.1
    ⟨"Label", 2023, Sentiment.Positive, some "label-abc"⟩
    (by norm_num [qualifyingMentions, sampleMentions, List.filter_cons])

/-- Modelled from the spec: the sentiment_scores record of the output schema. -/
structure SentimentScores where
  positive_score : Real
  negative_score : Real
  neutral_score : Real
  net_score : Real
  dominant_sentiment : DominantSentiment

/-- Modelled from the spec: the trend_scores record of the output schema, the
three sub-scores returned together. -/
structure TrendScores where
  recency_weighted : Real
  rate_of_change : Real
  evidence_progression : Real

/-- Modelled from the spec: the ScoreResult output structure of get_all_scores. -/
structure ScoreResult where
  evidence_strength : Real
  sentiment_scores : SentimentScores
  trend_scores : TrendScores

/-- Modelled from the spec: the loaded scoring configuration, with method
selectors already resolved to variants and the reference year injected. -/
structure ScoringConfig where
  source_weights : String → Rat
  frequency_aggregation : FrequencyAggregation
  normalization_method : NormalizationMethod
  prominence_combine : Rat → Rat → Rat
  decay_rate : Real
  window_years : Rat
  recent_years_threshold : Rat
  progression_points : String → Rat

/-- Modelled from the spec: get_evidence_strength of the orchestrator. -/
noncomputable def get_evidence_strength (cfg : ScoringConfig) (inp : ScorerInput) : Real :=
  evidenceStrength cfg.prominence_combine cfg.source_weights
    cfg.frequency_aggregation cfg.normalization_method
    inp.entity_a_metadata.overall_prominence inp.entity_b_metadata.overall_prominence
    inp.relationship_mentions

/-- Modelled from the spec: get_sentiment_scores of the orchestrator
(NetScoreDetailed). -/
noncomputable def get_sentiment_scores (cfg : ScoringConfig) (inp : ScorerInput) :
    SentimentScores :=
  SentimentScores.mk
    ((positiveScore cfg.source_weights inp.relationship_mentions : Rat) : Real)
    ((negativeScore cfg.source_weights inp.relationship_mentions : Rat) : Real)
    ((neutralScore cfg.source_weights inp.relationship_mentions : Rat) : Real)
    ((netScore cfg.source_weights inp.relationship_mentions : Rat) : Real)
    (dominantOf cfg.source_weights inp.relationship_mentions)

/-- Modelled from the spec: get_trend_scores of the orchestrator, always
returning the three sub-scores together. -/
noncomputable def get_trend_scores (cfg : ScoringConfig) (ref : Int)
    (inp : ScorerInput) : TrendScores :=
  TrendScores.mk
    (recencyWeighted cfg.source_weights cfg.decay_rate ref inp.relationship_mentions)
    ((rateOfChange cfg.source_weights cfg.window_years ref
        inp.relationship_mentions : Rat) : Real)
    ((evidenceProgression cfg.progression_points cfg.recent_years_threshold ref
        inp.relationship_mentions : Rat) : Real)

/-- Modelled from the spec: get_all_scores of the orchestrator, assembling the
ScoreResult from the three calculators. -/
noncomputable def get_all_scores (cfg : ScoringConfig) (ref : Int)
    (inp : ScorerInput) : ScoreResult :=
  ScoreResult.mk (get_evidence_strength cfg inp) (get_sentiment_scores cfg inp)
    (get_trend_scores cfg ref inp)

/-- Claim C1: get_all_scores returns exactly the ScoreResult shape: a float
evidence_strength; a sentiment_scores record with positive_score,
negative_score, neutral_score, net_score and dominant_sentiment; and a
trend_scores record holding the three floats recency_weighted, rate_of_change
and evidence_progression (not a single scalar trend_score). -/
theorem get_all_scores_shape (cfg : ScoringConfig) (ref : Int) (inp : ScorerInput) :
    get_all_scores cfg ref inp =
      ScoreResult.mk
        (evidenceStrength cfg.prominence_combine cfg.source_weights
          cfg.frequency_aggregation cfg.normalization_method
          inp.entity_a_metadata.overall_prominence
          inp.entity_b_metadata.overall_prominence inp.relationship_mentions)
        (SentimentScores.mk
          ((positiveScore cfg.source_weights inp.relationship_mentions : Rat) : Real)
          ((negativeScore cfg.source_weights inp.relationship_mentions : Rat) : Real)
          ((neutralScore cfg.source_weights inp.relationship_mentions : Rat) : Real)
          (((positiveScore cfg.source_weights inp.relationship_mentions
              - negativeScore cfg.source_weights inp.relationship_mentions : Rat)) : Real)
          (dominantSentiment
            (positiveScore cfg.source_weights inp.relationship_mentions)
            (negativeScore cfg.source_weights inp.relationship_mentions)
            (neutralScore cfg.source_weights inp.relationship_mentions)))
        (TrendScores.mk
          (recencyWeighted cfg.source_weights cfg.decay_rate ref
            inp.relationship_mentions)
          ((rateOfChange cfg.source_weights cfg.window_years ref
              inp.relationship_mentions : Rat) : Real)
          ((evidenceProgression cfg.progression_points cfg.recent_years_threshold
              ref inp.relationship_mentions : Rat) : Real)) := rfl

/-- Modelled from the spec: the error taxonomy of src/exceptions.py (absent
from the snapshot): Input Validation, Configuration, Calculation and Scoring
Initialization errors, each carrying a message. -/
inductive ScorerError where
  | configurationError : String → ScorerError
  | inputValidationError : String → ScorerError
  | calculationError : String → ScorerError
  | scoringInitializationError : String → ScorerError
deriving DecidableEq, Repr

/-- True exactly when a computation failed with a Configuration error. -/
def isConfigurationError {α : Type} : Except ScorerError α → Bool
  | Except.error (ScorerError.configurationError _) => true
  | _ => false

/-- True exactly when a computation succeeded. -/
def isOkE {α : Type} : Except ScorerError α → Bool
  | Except.ok _ => true
  | Except.error _ => false

lemma isConfigurationError_iff {α : Type} (x : Except ScorerError α) :
    isConfigurationError x = true ↔
      ∃ msg, x = Except.error (ScorerError.configurationError msg) := by
  cases x with
  | error e => cases e <;> simp [isConfigurationError]
  | ok v => simp [isConfigurationError]

def unknownSourceMsg : String := "Source type not found in source_weights: "

/-- Modelled from the spec: weight lookup shared by the calculators; a
source_type absent from source_weights is a Configuration error raised during
calculation. -/
def lookupWeight (sw : List (String × Rat)) (st : String) : Except ScorerError Rat :=
  match sw.lookup st with
  | some q => Except.ok q
  | none => Except.error (ScorerError.configurationError (unknownSourceMsg ++ st))

/-- The source_weights table of config/scoring_config.yaml as the loaded
association list. -/
def configSourceWeights : List (String × Rat) :=
  [("Guideline", 10), ("Label", 9), ("Phase 4 CT", 7), ("Phase 3 CT", 6),
   ("Phase 2 CT", 5), ("Phase 1 CT", 4), ("PubMed", 1), ("Preclinical", 1/2),
   ("Review", 3/2)]

/-- Modelled from the spec: the sentiment calculator's accumulation pass,
looking each mention's source type up in the weight table and accumulating the
positive, negative and neutral totals; the first missing source type aborts
the calculation with the lookup's Configuration error. -/
def sentimentTotalsE (sw : List (String × Rat)) :
    List Mention → Except ScorerError (Rat × Rat × Rat)
  | [] => Except.ok (0, 0, 0)
  | m :: rest =>
    match lookupWeight sw m.source_type with
    | Except.error e => Except.error e
    | Except.ok wt =>
      match sentimentTotalsE sw rest with
      | Except.error e => Except.error e
      | Except.ok t =>
        match m.sentiment with
        | Sentiment.Positive => Except.ok (t.1 + wt, t.2.1, t.2.2)
        | Sentiment.Negative => Except.ok (t.1, t.2.1 + wt, t.2.2)
        | Sentiment.Neutral => Except.ok (t.1, t.2.1, t.2.2 + wt)

/-- Modelled from the spec: the evidence calculator's lookup pass, resolving
each distinct source type to its weight and mention count before aggregation;
the first missing source type aborts with the lookup's Configuration error. -/
def collectTypeWeightsE (sw : List (String × Rat)) (ms : List Mention) :
    List String → Except ScorerError (List (Rat × Nat))
  | [] => Except.ok []
  | st :: rest =>
    match lookupWeight sw st with
    | Except.error e => Except.error e
    | Except.ok wq =>
      match collectTypeWeightsE sw ms rest with
      | Except.error e => Except.error e
      | Except.ok tl => Except.ok ((wq, countOf ms st) :: tl)

def logarithmicName : String := "Logarithmic"
def simpleSumName : String := "SimpleSum"
def pmiLikeName : String := "PMI-like"
def relativeFrequencyName : String := "RelativeFrequency"
def noNormName : String := "None"
def netScoreDetailedName : String := "NetScoreDetailed"
def dominantWeightedName : String := "DominantWeighted"
def unsupportedMethodMsg : String := "Unsupported method name: "
def emptyMentionsMsg : String := "relationship_mentions must be a non-empty list"

/-- Modelled from the spec: resolution of the frequency_aggregation selector
at construction; an unsupported name is a Configuration error. -/
def parseFrequencyAggregation (s : String) : Except ScorerError FrequencyAggregation :=
  if s = logarithmicName then Except.ok FrequencyAggregation.Logarithmic
  else if s = simpleSumName then Except.ok FrequencyAggregation.SimpleSum
  else Except.error (ScorerError.configurationError (unsupportedMethodMsg ++ s))

/-- Modelled from the spec: resolution of the normalization_method selector
at construction; an unsupported name is a Configuration error. -/
def parseNormalizationMethod (s : String) : Except ScorerError NormalizationMethod :=
  if s = pmiLikeName then Except.ok NormalizationMethod.PMILike
  else if s = relativeFrequencyName then Except.ok NormalizationMethod.RelativeFrequency
  else if s = noNormName then Except.ok NormalizationMethod.NoNorm
  else Except.error (ScorerError.configurationError (unsupportedMethodMsg ++ s))

/-- Sentiment aggregation strategies named in config/scoring_config.yaml. -/
inductive SentimentAggregation where
  | NetScoreDetailed : SentimentAggregation
  | DominantWeighted : SentimentAggregation
deriving DecidableEq, Repr

/-- Modelled from the spec: resolution of the sentiment aggregation_method
selector at construction; an unsupported name is a Configuration error. -/
def parseSentimentAggregation (s : String) : Except ScorerError SentimentAggregation :=
  if s = netScoreDetailedName then Except.ok SentimentAggregation.NetScoreDetailed
  else if s = dominantWeightedName then Except.ok SentimentAggregation.DominantWeighted
  else Except.error (ScorerError.configurationError (unsupportedMethodMsg ++ s))

/-- Modelled from the spec: the raw (string-valued) method selectors of the
configuration file before construction resolves them. -/
structure RawScoringConfig where
  source_weights : List (String × Rat)
  frequency_aggregation : String
  normalization_method : String
  sentiment_aggregation_method : String

/-- Modelled from the spec: the orchestrator in the Ready state, holding the
weight table, resolved strategies and the validated mentions. -/
structure ReadyScorer where
  source_weights : List (String × Rat)
  frequency_aggregation : FrequencyAggregation
  normalization_method : NormalizationMethod
  sentiment_aggregation : SentimentAggregation
  mentions : List Mention

/-- Modelled from the spec: the Uninitialized-to-Ready construction of the
orchestrator (src/main_scorer.py is absent from the snapshot): it rejects an
empty mention list and unsupported method names, but does not look mention
source types up in the weight table — that check is deferred to calculation. -/
def mkScorer (rc : RawScoringConfig) (inp : ScorerInput) : Except ScorerError ReadyScorer :=
  if inp.relationship_mentions = [] then
    Except.error (ScorerError.inputValidationError emptyMentionsMsg)
  else
    match parseFrequencyAggregation rc.frequency_aggregation with
    | Except.error e => Except.error e
    | Except.ok agg =>
      match parseNormalizationMethod rc.normalization_method with
      | Except.error e => Except.error e
      | Except.ok norm =>
        match parseSentimentAggregation rc.sentiment_aggregation_method with
        | Except.error e => Except.error e
        | Except.ok sag =>
          Except.ok (ReadyScorer.mk rc.source_weights agg norm sag
            inp.relationship_mentions)

lemma sentimentTotalsE_missing_source (sw : List (String × Rat)) :
    ∀ (ms : List Mention) (m : Mention), m ∈ ms →
      sw.lookup m.source_type = none →
      isConfigurationError (sentimentTotalsE sw ms) = true := by
  intro ms
  induction ms with
  | nil => intro m hm; cases hm
  | cons m0 rest ih =>
    intro m hm hlk
    cases hl0 : sw.lookup m0.source_type with
    | none =>
      show isConfigurationError (sentimentTotalsE sw (m0 :: rest)) = true
      simp only [sentimentTotalsE, lookupWeight, hl0]
      rfl
    | some q =>
      rcases List.mem_cons.mp hm with heq | hmem
      · subst heq
        rw [hlk] at hl0
        cases hl0
      · have hrest := ih m hmem hlk
        rcases (isConfigurationError_iff (sentimentTotalsE sw rest)).mp hrest
          with ⟨msg, hmsg⟩
        show isConfigurationError (sentimentTotalsE sw (m0 :: rest)) = true
        simp only [sentimentTotalsE, lookupWeight, hl0, hmsg]
        rfl

lemma collectTypeWeightsE_missing_source (sw : List (String × Rat))
    (ms : List Mention) :
    ∀ (types : List String) (st : String), st ∈ types →
      sw.lookup st = none →
      isConfigurationError (collectTypeWeightsE sw ms types) = true := by
  intro types
  induction types with
  | nil => intro st hst; cases hst
  | cons t0 rest ih =>
    intro st hst hlk
    cases hl0 : sw.lookup t0 with
    | none =>
      show isConfigurationError (collectTypeWeightsE sw ms (t0 :: rest)) = true
      simp only [collectTypeWeightsE, lookupWeight, hl0]
      rfl
    | some q =>
      rcases List.mem_cons.mp hst with heq | hmem
      · subst heq
        rw [hlk] at hl0
        cases hl0
      · have hrest := ih st hmem hlk
        rcases (isConfigurationError_iff (collectTypeWeightsE sw ms rest)).mp hrest
          with ⟨msg, hmsg⟩
        show isConfigurationError (collectTypeWeightsE sw ms (t0 :: rest)) = true
        simp only [collectTypeWeightsE, lookupWeight, hl0, hmsg]
        rfl

lemma mem_sourceTypes_of_mem {m : Mention} {ms : List Mention} (hm : m ∈ ms) :
    m.source_type ∈ sourceTypes ms := by
  rw [sourceTypes, List.mem_dedup]
  exact List.mem_map_of_mem (fun x => x.source_type) hm

/-- Claim C9: a mention whose source_type is absent from source_weights makes
the sentiment calculator (and likewise the evidence calculator) fail with a
Configuration error — and no other error kind — during calculation, while
construction itself succeeds for any supported method names (the lookup is not
checked at construction); an unsupported method name, by contrast, fails at
construction with a Configuration error. -/
theorem missing_source_type_configuration_error (sw : List (String × Rat))
    (rc : RawScoringConfig) (inp : ScorerInput) (m : Mention) (ms : List Mention) :
    (m ∈ ms → sw.lookup m.source_type = none →
      isConfigurationError (sentimentTotalsE sw ms) = true) ∧
    (m ∈ ms → sw.lookup m.source_type = none →
      isConfigurationError (collectTypeWeightsE sw ms (sourceTypes ms)) = true) ∧
    (rc.frequency_aggregation = logarithmicName →
      rc.normalization_method = pmiLikeName →
      rc.sentiment_aggregation_method = netScoreDetailedName →
      inp.relationship_mentions ≠ [] →
      isOkE (mkScorer rc inp) = true) ∧
    (rc.frequency_aggregation ≠ logarithmicName →
      rc.frequency_aggregation ≠ simpleSumName →
      inp.relationship_mentions ≠ [] →
      isConfigurationError (mkScorer rc inp) = true) := by
  refine ⟨?_, ?_, ?_, ?_⟩
  · intro hm hlk
    exact sentimentTotalsE_missing_source sw ms m hm hlk
  · intro hm hlk
    exact collectTypeWeightsE_missing_source sw ms (sourceTypes ms) m.source_type
      (mem_sourceTypes_of_mem hm) hlk
  · intro h1 h2 h3 h4
    rw [mkScorer, if_neg h4]
    simp only [parseFrequencyAggregation, parseNormalizationMethod,
      parseSentimentAggregation, h1, h2, h3, if_pos rfl]
    rfl
  · intro h1 h2 h4
    rw [mkScorer, if_neg h4]
    simp only [parseFrequencyAggregation, if_neg h1, if_neg h2]
    rfl

/-- A mention whose source type is outside the configured vocabulary. -/
def blogMention : Mention := Mention.mk "Blog" 2024 Sentiment.Positive none

/-- Witness for claim C9: on a single mention of the unknown source type Blog,
the sentiment calculator's accumulation over the configured weight table fails
with a Configuration error. -/
theorem missing_source_type_configuration_error_witness :
    isConfigurationError (sentimentTotalsE configSourceWeights [blogMention]) = true :=
  (missing_source_type_configuration_error configSourceWeights
      (RawScoringConfig.mk configSourceWeights logarithmicName pmiLikeName
        netScoreDetailedName)
      (ScorerInput.mk [blogMention] (EntityMetadata.mk "DRUG_X" 250.5)
        (EntityMetadata.mk "DISEASE_Y" 180))
      blogMention [blogMention]).1
    (List.mem_cons_self blogMention []) (by rfl)

end RelScoring
